import Mathlib

/-!
Verification development for the `YouTubeDownloader` component
(`src/src/components/YouTubeDownloader.jsx`).

The component's non-visual core is embedded shallowly:

* `normalizeFormats` (lines 38-60): type classification, identity keys and
  first-seen deduplication of the raw format list;
* `videoFormats` / `audioFormats` (lines 62-63): the two partitions;
* `handleFetch` (lines 66-108): the metadata fetch, modelled as a pure
  function of the settled axios outcome (resolution data or rejection error);
* `handleDownload` (lines 115-178): the download orchestration, modelled as a
  pure function of the settled network outcome, with explicit millisecond
  timestamps for header and body arrival so that the 120 s deadline logic
  (`setTimeout`/`AbortController`/`clearTimeout`) is captured.

JavaScript nullish/truthy behaviour is made explicit: absent (`undefined`/
`null`) fields are `Option.none`; `x ?? y` tests `Option.isSome`; `x || y`
tests JS truthiness (`""` and `0` are falsy); template-literal interpolation
renders an absent value as the string `"undefined"`.
-/

/-- One raw format record as delivered by the info endpoint
(fields read by the component; absent fields are `none`). -/
structure RawFormat where
  format_id : Option String
  type : Option String
  ext : Option String
  qualityLabel : Option String
  abr : Option Nat
  acodec : Option String
  height : Option Nat
  vcodec : Option String
deriving DecidableEq, Repr

/-- A format record after `normalizeFormats` has forced the `type` field to a
definite string (line 45 always stores a string there). -/
structure NormFormat where
  format_id : Option String
  type : String
  ext : Option String
  qualityLabel : Option String
  abr : Option Nat
  acodec : Option String
  height : Option Nat
  vcodec : Option String
deriving DecidableEq, Repr

/-- JS truthiness of an optional string: `undefined`, `null` and `""` are
falsy. -/
def truthyStr : Option String → Bool
  | some s => s != ""
  | none => false

/-- JS truthiness of an optional number: `undefined`, `null` and `0` are
falsy. -/
def truthyNat : Option Nat → Bool
  | some n => n != 0
  | none => false

/-- Template-literal rendering of an optional string: JS prints `undefined`
as the text `"undefined"`. -/
def jsStr : Option String → String
  | some s => s
  | none => "undefined"

/-- `x || ""` for an optional string (used at lines 52 and 116). -/
def orEmptyStr (o : Option String) : String :=
  if truthyStr o then o.getD "" else ""

/-- `` `${x || ""}` `` for an optional number (used at line 52). -/
def orEmptyNat (o : Option Nat) : String :=
  if truthyNat o then toString (o.getD 0) else ""

/-- Line 41: `f.type === "video" || !!f.height || !!f.vcodec`. -/
def hasVideo (f : RawFormat) : Bool :=
  f.type == some "video" || truthyNat f.height || truthyStr f.vcodec

/-- Line 42: `f.type === "audio" || !!f.abr || !!f.acodec`. -/
def hasAudio (f : RawFormat) : Bool :=
  f.type == some "audio" || truthyNat f.abr || truthyStr f.acodec

/-- `f.type || "video"` (the fallback at line 45). -/
def declaredType (f : RawFormat) : String :=
  if truthyStr f.type then f.type.getD "" else "video"

/-- Lines 40-47: the classification step of `normalizeFormats`, producing the
record with its stored `type`. -/
def withType (f : RawFormat) : NormFormat :=
  { format_id := f.format_id
    type :=
      if hasVideo f && !hasAudio f then "video"
      else if hasAudio f && !hasVideo f then "audio"
      else declaredType f
    ext := f.ext
    qualityLabel := f.qualityLabel
    abr := f.abr
    acodec := f.acodec
    height := f.height
    vcodec := f.vcodec }

/-- Lines 50-52: the identity key.
`f.format_id ?? ⟨composite⟩` keeps any present identifier (even `""`);
otherwise the composite `type|ext|qualityLabel||""|abr||""|height||""`. -/
def keyOf (f : NormFormat) : String :=
  match f.format_id with
  | some id => id
  | none =>
      f.type ++ "|" ++ jsStr f.ext ++ "|" ++ orEmptyStr f.qualityLabel ++ "|"
        ++ orEmptyNat f.abr ++ "|" ++ orEmptyNat f.height

/-- Lines 54-59: the `filter` over the `seen` set, made explicit with the
accumulated key list as second argument. -/
def dedup : List NormFormat → List String → List NormFormat
  | [], _ => []
  | f :: rest, seen =>
    if seen.contains (keyOf f) then dedup rest seen
    else f :: dedup rest (keyOf f :: seen)

/-- Lines 38-60: `normalizeFormats(raw)`; a missing (or non-array) `formats`
value is the empty list (line 39). -/
def normalizeFormats (raw : Option (List RawFormat)) : List NormFormat :=
  dedup ((raw.getD []).map withType) []

/-- Line 62: `normalizeFormats(videoData?.formats).filter(f => f.type === "video")`. -/
def videoFormats (raw : Option (List RawFormat)) : List NormFormat :=
  (normalizeFormats raw).filter (fun f => f.type == "video")

/-- Line 63: `normalizeFormats(videoData?.formats).filter(f => f.type === "audio")`. -/
def audioFormats (raw : Option (List RawFormat)) : List NormFormat :=
  (normalizeFormats raw).filter (fun f => f.type == "audio")

/-- Line 116 (also line 182): the per-task busy-map key
`format.format_id || `${format.type}-${format.ext}-${format.qualityLabel || ""}``.
Note `||` (truthiness), not `??`, and the composite omits bitrate and height. -/
def downloadId (format : NormFormat) : String :=
  if truthyStr format.format_id then format.format_id.getD ""
  else format.type ++ "-" ++ jsStr format.ext ++ "-" ++ orEmptyStr format.qualityLabel

/-- The info-endpoint response body (`res.data`), restricted to the fields the
component reads.  `formats` being `some` models a present `formats` field
(arrays are always truthy in JS, even when empty). -/
structure InfoData where
  title : Option String
  thumbnail : Option String
  formats : Option (List RawFormat)
  error : Option String
deriving DecidableEq, Repr

/-- The component state touched by `handleFetch`: the metadata slot, the error
banner and the loading flag. -/
structure FetchState where
  videoData : Option InfoData
  error : String
  loading : Bool
deriving DecidableEq, Repr

/-- The fields of a caught exception that the `catch` block at lines 89-104
inspects: `err.code`, `err.response?.data?.error` (flattened; `none` when
there is no HTTP response attached) and `err.message`. -/
structure JsError where
  code : Option String
  responseError : Option String
  message : String
deriving DecidableEq, Repr

/-- JS `String.prototype.trim`: strip leading and trailing whitespace
(used by the guard `if (!url.trim()) return` at line 67). -/
def jsTrim (s : String) : String :=
  String.mk (((s.data.dropWhile Char.isWhitespace).reverse.dropWhile
    Char.isWhitespace).reverse)

/-- Whether the pattern matches at the head of the character list. -/
def matchesFront : List Char → List Char → Bool
  | _, [] => true
  | [], _ :: _ => false
  | a :: hay, b :: nd => a == b && matchesFront hay nd

/-- Whether the pattern occurs contiguously anywhere in the character list. -/
def occursIn : List Char → List Char → Bool
  | [], nd => nd.isEmpty
  | hay@(_ :: rest), nd => matchesFront hay nd || occursIn rest nd

/-- `hay.includes(nd)` (JS `String.prototype.includes`, line 97). -/
def hasSubstr (hay nd : String) : Bool := occursIn hay.data nd.data

/-- `s.startsWith(p)` — used only in theorem statements about message shape. -/
def strStarts (s p : String) : Bool := matchesFront s.data p.data

/-- Lines 93-101: the cause-specific suffix chosen by the catch block of
`handleFetch`. -/
def fetchSuffix (e : JsError) : String :=
  if e.code == some "ECONNABORTED" then "Request timeout. Please try again."
  else if truthyStr e.responseError then e.responseError.getD ""
  else if hasSubstr e.message "Network Error" then
    "Cannot connect to server. Check your internet connection."
  else "Please check the URL and try again."

/-- `{}` — the empty object stored by `setVideoData({})` at line 104. -/
def emptyInfo : InfoData :=
  { title := none, thumbnail := none, formats := none, error := none }

/-- Lines 89-104: the whole catch block — compose the message from the stable
"Failed to fetch video info. " part and the classified suffix, store it, and
set the metadata slot to the empty object. -/
def fetchCatch (e : JsError) : FetchState :=
  { videoData := some emptyInfo
    error := "Failed to fetch video info. " ++ fetchSuffix e
    loading := false }

/-- Lines 69-107: the body of `handleFetch` past the guard, as a function of
the settled axios outcome.  `outcome = .ok d` models the request resolving
with body `d` (the body is taken to be an object, so `res.data` itself is
truthy); `.error e` models a rejection with error `e`.  Errors thrown inside
the `try` (lines 85 and 87) reach the same catch with no `code` and no
`response`, so they are routed through `fetchCatch` with those fields
`none`.  `setLoading(false)` in the `finally` makes `loading` `false` on
every path. -/
def handleFetchBody (outcome : Except JsError InfoData) : FetchState :=
  match outcome with
  | .ok d =>
      if d.formats.isSome then { videoData := some d, error := "", loading := false }
      else
        fetchCatch
          { code := none
            responseError := none
            message :=
              if truthyStr d.error then d.error.getD ""
              else "No video data received from server" }
  | .error e => fetchCatch e

/-- Lines 66-108: `handleFetch`, with the guard `if (!url.trim()) return`
(line 67) leaving the state untouched. -/
def handleFetch (url : String) (st : FetchState) (outcome : Except JsError InfoData) :
    FetchState :=
  if jsTrim url == "" then st else handleFetchBody outcome

/-- The settled outcome of the download `fetch` at line 133, with explicit
timing: `resolve tHeaders ok status statusText tBody size` means the response
headers settle `tHeaders` ms after the request started and the `blob()` body
read settles `tBody` ms after the start with a payload of `size` bytes;
`reject name message` models the fetch promise rejecting for a non-deadline
reason (e.g. a network failure) with the given error name and message. -/
inductive FetchResponse
  | reject (name : String) (message : String)
  | resolve (tHeaders : Nat) (ok : Bool) (status : Nat) (statusText : String)
      (tBody : Nat) (size : Nat)
deriving DecidableEq, Repr

/-- The component state touched by `handleDownload`: the per-key busy map
(`downloadingMap`, a string-keyed object) and the error banner. -/
structure DlState where
  downloadingMap : String → Bool
  error : String

/-- `setDownloadingMap(prev => ({...prev, [k]: v}))` (lines 118 and 176). -/
def setBusy (st : DlState) (k : String) (v : Bool) : DlState :=
  { st with downloadingMap := fun x => if x = k then v else st.downloadingMap x }

/-- The observable result of one `handleDownload` run: the final component
state, how many network requests were issued, whether `controller.abort()`
was fired by the deadline timer, and the filenames passed to the save-as
link. -/
structure DlResult where
  state : DlState
  requests : Nat
  aborted : Bool
  saves : List String

/-- Lines 115-178: `handleDownload(format)`, as a function of the settled
network outcome.  The busy map is set at `id` unconditionally (line 118 — no
in-flight guard exists) and the request is always issued (line 133), so
`requests = 1` on every path.  The deadline timer
(`setTimeout(() => controller.abort(), 120000)`, line 131) can only fire
while the header await at line 133 is pending: `clearTimeout` at line 138
runs as soon as the headers settle, before `response.blob()` at line 145, so
the body-read time `tBody` never triggers an abort.  The `finally` at lines
175-177 resets the busy map at `id` on every path. -/
def handleDownload (format : NormFormat) (title : Option String)
    (response : FetchResponse) (st : DlState) : DlResult :=
  let id := downloadId format
  let st1 : DlState := { setBusy st id true with error := "" }
  match response with
  | .reject name msg =>
      let st2 :=
        if name = "AbortError" then
          { st1 with error := "Download timeout. The video might be too large." }
        else { st1 with error := "Download failed: " ++ msg }
      { state := setBusy st2 id false, requests := 1, aborted := false, saves := [] }
  | .resolve tHeaders ok status statusText _tBody size =>
      if 120000 < tHeaders then
        { state :=
            setBusy
              { st1 with error := "Download timeout. The video might be too large." }
              id false
          requests := 1, aborted := true, saves := [] }
      else if !ok then
        { state :=
            setBusy
              { st1 with
                  error := "Download failed: Server returned " ++ toString status
                    ++ ": " ++ statusText }
              id false
          requests := 1, aborted := false, saves := [] }
      else if size = 0 then
        { state :=
            setBusy
              { st1 with error := "Download failed: Received empty file from server" }
              id false
          requests := 1, aborted := false, saves := [] }
      else
        let ext := if format.type = "audio" then "mp3" else "mp4"
        let filename := (if truthyStr title then title.getD "" else "video") ++ "." ++ ext
        { state := setBusy st1 id false, requests := 1, aborted := false,
          saves := [filename] }

/-- Reference characterization of first-seen-wins deduplication, taken from
the spec wording (§4.2 step 3): keep the first entry observed for each
identity key, discard every later entry sharing that key. -/
def keepFirst : List NormFormat → List NormFormat
  | [] => []
  | f :: rest => f :: keepFirst (rest.filter (fun g => keyOf g != keyOf f))
termination_by l => l.length
decreasing_by
  simp only [List.length_cons]
  exact Nat.lt_succ_of_le (List.length_filter_le _ _)

/-- The classification rule exactly as claim C2 words it: marker sets are
only height/vcodec and abr/acodec, never the declared `type` field.
(Spec-side definition, for comparison with the code's `withType`.) -/
def classifySpecNarrow (f : RawFormat) : String :=
  let v := truthyNat f.height || truthyStr f.vcodec
  let a := truthyNat f.abr || truthyStr f.acodec
  if v && !a then "video" else if a && !v then "audio" else declaredType f

/-- The amended classification rule: a declared `"video"` type also counts as
a video marker and a declared `"audio"` type as an audio marker; precedence
is video-only markers, then audio-only markers, then the declared type,
defaulting to `"video"`.  (Spec-side definition, for comparison with the
code's `withType`.) -/
def classifyAmended (f : RawFormat) : String :=
  let v := f.type == some "video" || truthyNat f.height || truthyStr f.vcodec
  let a := f.type == some "audio" || truthyNat f.abr || truthyStr f.acodec
  if v && !a then "video" else if a && !v then "audio" else declaredType f

/-- Sample raw entry: declared `video`, carries a bitrate but neither height
nor codec tags. -/
def fDeclVideoAbr : RawFormat :=
  { format_id := none, type := some "video", ext := some "mp4",
    qualityLabel := none, abr := some 128, acodec := none,
    height := none, vcodec := none }

/-- Sample raw entry: a nonstandard declared type and no markers at all. -/
def fMuxed : RawFormat :=
  { format_id := none, type := some "muxed", ext := some "mp4",
    qualityLabel := none, abr := none, acodec := none,
    height := none, vcodec := none }

/-- Sample raw entry: a server identifier and a height. -/
def fVid : RawFormat :=
  { format_id := some "137", type := none, ext := some "mp4",
    qualityLabel := some "720p", abr := none, acodec := none,
    height := some 720, vcodec := some "avc1" }

/-- Sample normalized entry without a server identifier, height 720. -/
def nf720 : NormFormat :=
  { format_id := none, type := "video", ext := some "mp4",
    qualityLabel := none, abr := none, acodec := none,
    height := some 720, vcodec := none }

/-- Sample normalized entry without a server identifier, height 1080,
otherwise identical to `nf720`. -/
def nf1080 : NormFormat :=
  { format_id := none, type := "video", ext := some "mp4",
    qualityLabel := none, abr := none, acodec := none,
    height := some 1080, vcodec := none }

/-- Sample normalized entry with a server identifier. -/
def nfId : NormFormat :=
  { format_id := some "137", type := "video", ext := some "mp4",
    qualityLabel := some "720p", abr := none, acodec := none,
    height := some 720, vcodec := some "avc1" }

/-- A download-side state with every key idle. -/
def st0 : DlState := { downloadingMap := fun _ => false, error := "" }

/-- A download-side state whose registry already holds the busy flag for
every key (in particular for `downloadId nfId`). -/
def stBusy : DlState := { downloadingMap := fun _ => true, error := "" }

/-- A fetch-side state as it is just before the request settles. -/
def stF0 : FetchState := { videoData := none, error := "", loading := true }

/-- An info-endpoint response carrying only an explicit error field. -/
def infoErr : InfoData :=
  { title := none, thumbnail := none, formats := none,
    error := some "Video unavailable" }

/-- An info-endpoint response carrying both a (truthy) `formats` array and an
explicit error field. -/
def infoBoth : InfoData :=
  { title := some "T", thumbnail := none, formats := some [fVid],
    error := some "ignored" }

/-- A rejection carrying no axios code and no HTTP response. -/
def jsE0 : JsError := { code := none, responseError := none, message := "boom" }

lemma handleFetch_of_ne (url : String) (st : FetchState)
    (outcome : Except JsError InfoData) (hu : jsTrim url ≠ "") :
    handleFetch url st outcome = handleFetchBody outcome := by
  have hb : (jsTrim url == "") = false := beq_eq_false_iff_ne.mpr hu
  simp [handleFetch, hb]

lemma dedup_cons_mem {f : NormFormat} {rest : List NormFormat} {seen : List String}
    (hc : keyOf f ∈ seen) : dedup (f :: rest) seen = dedup rest seen := by
  simp [dedup, hc]

lemma dedup_cons_not_mem {f : NormFormat} {rest : List NormFormat} {seen : List String}
    (hc : keyOf f ∉ seen) :
    dedup (f :: rest) seen = f :: dedup rest (keyOf f :: seen) := by
  simp [dedup, hc]

lemma dedup_eq_keepFirst (l : List NormFormat) (seen : List String) :
    dedup l seen = keepFirst (l.filter (fun f => !seen.contains (keyOf f))) := by
  induction l generalizing seen with
  | nil => simp [dedup, keepFirst]
  | cons f rest ih =>
    by_cases hc : keyOf f ∈ seen
    · rw [dedup_cons_mem hc, ih seen, List.filter_cons]
      simp [hc]
    · have hrw :
          rest.filter (fun g => !(keyOf f :: seen).contains (keyOf g)) =
            (rest.filter (fun g => !seen.contains (keyOf g))).filter
              (fun g => keyOf g != keyOf f) := by
        rw [List.filter_filter]
        refine List.filter_congr fun g _ => ?_
        by_cases h1 : keyOf g = keyOf f <;> by_cases h2 : keyOf g ∈ seen <;>
          simp [h1, h2]
      rw [dedup_cons_not_mem hc, ih (keyOf f :: seen), hrw, List.filter_cons]
      have hcb : (!seen.contains (keyOf f)) = true := by simp [hc]
      rw [if_pos hcb]
      simp only [keepFirst]

lemma dedup_sublist (l : List NormFormat) (seen : List String) :
    (dedup l seen).Sublist l := by
  induction l generalizing seen with
  | nil => simp [dedup]
  | cons f rest ih =>
    by_cases hc : keyOf f ∈ seen
    · rw [dedup_cons_mem hc]
      exact (ih seen).cons f
    · rw [dedup_cons_not_mem hc]
      exact (ih (keyOf f :: seen)).cons₂ f

lemma dedup_not_seen (l : List NormFormat) (seen : List String) (f : NormFormat)
    (hf : f ∈ dedup l seen) : keyOf f ∉ seen := by
  induction l generalizing seen with
  | nil => simp [dedup] at hf
  | cons g rest ih =>
    by_cases hc : keyOf g ∈ seen
    · exact ih seen (by rwa [dedup_cons_mem hc] at hf)
    · rw [dedup_cons_not_mem hc, List.mem_cons] at hf
      rcases hf with hf | hf
      · rwa [hf]
      · have := ih (keyOf g :: seen) hf
        exact fun h => this (List.mem_cons_of_mem _ h)

lemma dedup_pairwise (l : List NormFormat) (seen : List String) :
    (dedup l seen).Pairwise (fun a b => keyOf a ≠ keyOf b) := by
  induction l generalizing seen with
  | nil => simp [dedup]
  | cons g rest ih =>
    by_cases hc : keyOf g ∈ seen
    · rw [dedup_cons_mem hc]
      exact ih seen
    · rw [dedup_cons_not_mem hc]
      refine List.Pairwise.cons (fun b hb => ?_) (ih (keyOf g :: seen))
      have := dedup_not_seen rest (keyOf g :: seen) b hb
      exact fun h => this (h ▸ List.mem_cons_self _ _)

lemma matchesFront_append_left (p : List Char) :
    ∀ (s t : List Char), matchesFront s p = true → matchesFront (s ++ t) p = true := by
  induction p with
  | nil =>
    intro s t _
    cases s with
    | nil => cases t <;> rfl
    | cons a as => rfl
  | cons b bs ih =>
    intro s t h
    cases s with
    | nil => simp [matchesFront] at h
    | cons a as =>
      simp only [matchesFront, Bool.and_eq_true] at h
      simp only [List.cons_append, matchesFront, Bool.and_eq_true]
      exact ⟨h.1, ih as t h.2⟩

/-- A message that starts with `p` still starts with `p` after appending a
suffix. -/
lemma strStarts_append_left (s t p : String) (h : strStarts s p = true) :
    strStarts (s ++ t) p = true := by
  unfold strStarts at h ⊢
  rw [String.data_append]
  exact matchesFront_append_left _ _ _ h

lemma setBusy_error (s : DlState) (k : String) (v : Bool) :
    (setBusy s k v).error = s.error := rfl

lemma setBusy_self (s : DlState) (k : String) (v : Bool) :
    (setBusy s k v).downloadingMap k = v := by
  simp [setBusy]

/-- Claim C5: deduplication processes entries in original order and keeps
exactly the first entry observed for each identity key (first-seen-wins):
the normalized list equals the first-seen-wins reference `keepFirst` on the
classified input, it is a sublist of the classified input (so the relative
order of survivors matches the order of their first occurrences), and no two
entries of the normalized list — hence of either output partition — share an
identity key. -/
theorem normalize_first_seen_wins (raw : Option (List RawFormat)) :
    normalizeFormats raw = keepFirst ((raw.getD []).map withType)
    ∧ (normalizeFormats raw).Sublist ((raw.getD []).map withType)
    ∧ ((normalizeFormats raw).map keyOf).Nodup
    ∧ ((videoFormats raw).map keyOf).Nodup
    ∧ ((audioFormats raw).map keyOf).Nodup := by
  have h3 : ((normalizeFormats raw).map keyOf).Nodup :=
    List.pairwise_map.mpr (dedup_pairwise ((raw.getD []).map withType) [])
  refine ⟨?_, dedup_sublist _ _, h3,
    List.Nodup.sublist ((List.filter_sublist _).map keyOf) h3,
    List.Nodup.sublist ((List.filter_sublist _).map keyOf) h3⟩
  rw [normalizeFormats, dedup_eq_keepFirst]
  congr 1
  exact List.filter_eq_self.mpr fun g _ => by simp

/-- Claim C4 counterexample: an entry whose declared type is the nonstandard
string `"muxed"` (and which carries no markers) survives normalization but
appears in neither the video partition nor the audio partition, refuting
"each surviving normalized entry appears in exactly one of the video sequence
and the audio sequence, regardless of the entry's declared type string". -/
theorem muxed_entry_in_neither_partition :
    withType fMuxed ∈ normalizeFormats (some [fMuxed])
    ∧ (withType fMuxed).type = "muxed"
    ∧ withType fMuxed ∉ videoFormats (some [fMuxed])
    ∧ withType fMuxed ∉ audioFormats (some [fMuxed]) := by decide

/-- Claim C4 amended: the two partitions are disjoint, and a surviving
normalized entry appears in the video partition exactly when its classified
type is `"video"` and in the audio partition exactly when it is `"audio"`;
entries with any other classified type string appear in neither. -/
theorem partition_by_classified_type (raw : Option (List RawFormat))
    (f : NormFormat) (hf : f ∈ normalizeFormats raw) :
    (f ∈ videoFormats raw ↔ f.type = "video")
    ∧ (f ∈ audioFormats raw ↔ f.type = "audio")
    ∧ ¬(f ∈ videoFormats raw ∧ f ∈ audioFormats raw) := by
  have hv : f ∈ videoFormats raw ↔ f.type = "video" := by
    simp [videoFormats, List.mem_filter, hf]
  have ha : f ∈ audioFormats raw ↔ f.type = "audio" := by
    simp [audioFormats, List.mem_filter, hf]
  refine ⟨hv, ha, ?_⟩
  rintro ⟨h1, h2⟩
  rw [hv] at h1
  rw [ha] at h2
  rw [h1] at h2
  exact absurd h2 (by decide)

theorem partition_by_classified_type_witness :
    withType fVid ∈ normalizeFormats (some [fVid])
    ∧ ((withType fVid ∈ videoFormats (some [fVid]) ↔ (withType fVid).type = "video")
      ∧ (withType fVid ∈ audioFormats (some [fVid]) ↔ (withType fVid).type = "audio")
      ∧ ¬(withType fVid ∈ videoFormats (some [fVid])
          ∧ withType fVid ∈ audioFormats (some [fVid]))) :=
  ⟨by decide, partition_by_classified_type (some [fVid]) (withType fVid) (by decide)⟩

/-- Claim C2 counterexample: for an entry declared `video` that carries a
bitrate but no height and no codec tags, the code classifies it `"video"`
(the declared type counts as a video marker, so both marker sets are present
and the declared type wins), while the claimed rule — marker sets restricted
to height/vcodec and abr/acodec — would classify it `"audio"`. -/
theorem classify_counts_declared_type_as_marker :
    (withType fDeclVideoAbr).type = "video"
    ∧ classifySpecNarrow fDeclVideoAbr = "audio"
    ∧ (withType fDeclVideoAbr).type ≠ classifySpecNarrow fDeclVideoAbr := by decide

/-- Claim C2 amended: the classification follows the stated precedence
(video-only markers, then audio-only markers, then the declared type,
defaulting to `"video"`), but with the declared type itself included in each
marker set: `classifyAmended` is exactly what the code computes. -/
theorem classify_matches_amended_rule (f : RawFormat) :
    (withType f).type = classifyAmended f := rfl

/-- Claim C3 counterexample: for a variant without a server identifier the
task key of `handleDownload` is `type-ext-quality` (hyphen-separated, no
bitrate, no height) while `keyOf` is `type|ext|quality|abr|height`; the two
disagree, and two variants differing only in height get distinct `keyOf`
keys but the same download task key. -/
theorem downloadId_differs_from_keyOf :
    keyOf nf720 = "video|mp4|||720"
    ∧ downloadId nf720 = "video-mp4-"
    ∧ downloadId nf720 ≠ keyOf nf720
    ∧ keyOf nf720 ≠ keyOf nf1080
    ∧ downloadId nf720 = downloadId nf1080 := by decide

/-- Claim C3 amended: the two key schemes agree exactly on variants with a
truthy (present and nonempty) server format identifier; without one,
`handleDownload` keys by the composite (type, extension, quality label)
only. -/
theorem downloadId_eq_keyOf_of_truthy_id (f : NormFormat)
    (h : truthyStr f.format_id = true) : downloadId f = keyOf f := by
  cases hfi : f.format_id with
  | none => rw [hfi] at h; exact absurd h (by decide)
  | some s =>
    have h' : truthyStr (some s) = true := hfi ▸ h
    simp [downloadId, keyOf, hfi, h']

theorem downloadId_eq_keyOf_of_truthy_id_witness :
    truthyStr nfId.format_id = true ∧ downloadId nfId = keyOf nfId :=
  ⟨by decide, downloadId_eq_keyOf_of_truthy_id nfId (by decide)⟩

/-- Claim C1 counterexample: with the registry already holding the busy flag
for the variant's identity key, `handleDownload` is not a no-op — it still
issues a network request (`requests = 1`, not `0`), and two back-to-back
calls on the same key issue two requests, not one. -/
theorem inflight_key_still_requests :
    stBusy.downloadingMap (downloadId nfId) = true
    ∧ (handleDownload nfId (some "t") (.resolve 50 true 200 "OK" 100 10) stBusy).requests = 1
    ∧ (handleDownload nfId (some "t") (.resolve 50 true 200 "OK" 100 10) stBusy).requests ≠ 0
    ∧ (handleDownload nfId (some "t") (.resolve 50 true 200 "OK" 100 10) st0).requests
        + (handleDownload nfId (some "t") (.resolve 50 true 200 "OK" 100 10)
            (handleDownload nfId (some "t") (.resolve 50 true 200 "OK" 100 10) st0).state).requests
        = 2 := by
  refine ⟨rfl, rfl, by decide, rfl⟩

/-- Claim C1 amended: `handleDownload` has no in-flight guard at all: for
every variant, state and outcome it issues exactly one network request,
regardless of what the registry holds for the identity key (the only
duplicate-click protection is the UI hiding the button while the busy flag is
set, outside this function). -/
theorem handleDownload_always_one_request (fmt : NormFormat) (title : Option String)
    (resp : FetchResponse) (st : DlState) :
    (handleDownload fmt title resp st).requests = 1 := by
  cases resp with
  | reject name msg => rfl
  | resolve tH ok status stext tB size =>
    by_cases h1 : 120000 < tH
    · simp [handleDownload, h1]
    · by_cases h2 : ok = true
      · by_cases h3 : size = 0
        · simp [handleDownload, h1, h2, h3]
        · simp [handleDownload, h1, h2, h3]
      · simp [handleDownload, h1, h2]

/-- Claim C7: on every exit path — success, deadline abort, non-success HTTP
status, empty payload, and any other rejection — the `finally` block resets
the task's busy flag, so the registry entry for the identity key ends
`false` (Idle). -/
theorem handleDownload_resets_busy (fmt : NormFormat) (title : Option String)
    (resp : FetchResponse) (st : DlState) :
    (handleDownload fmt title resp st).state.downloadingMap (downloadId fmt) = false := by
  cases resp with
  | reject name msg =>
    by_cases h : name = "AbortError" <;> simp [handleDownload, setBusy, h]
  | resolve tH ok status stext tB size =>
    by_cases h1 : 120000 < tH
    · simp [handleDownload, setBusy, h1]
    · by_cases h2 : ok = true
      · by_cases h3 : size = 0
        · simp [handleDownload, setBusy, h1, h2, h3]
        · simp [handleDownload, setBusy, h1, h2, h3]
      · simp [handleDownload, setBusy, h1, h2]

/-- Claim C9 counterexample: headers settle at 1 s but the payload read only
settles at 300 s — beyond the 120-second deadline — yet no abort fires, no
timeout is surfaced (`error` stays empty) and the save-as action happens:
the deadline is not bound to payload materialization (`clearTimeout` at line
138 runs before `response.blob()` at line 145). -/
theorem deadline_not_bound_to_body_read :
    120000 < 300000
    ∧ (handleDownload nfId (some "t") (.resolve 1000 true 200 "OK" 300000 5) st0).aborted = false
    ∧ (handleDownload nfId (some "t") (.resolve 1000 true 200 "OK" 300000 5) st0).state.error = ""
    ∧ (handleDownload nfId (some "t") (.resolve 1000 true 200 "OK" 300000 5) st0).saves
        = ["t.mp4"] := by
  refine ⟨by decide, rfl, rfl, rfl⟩

/-- Claim C9 amended: the 120-second deadline covers the request only up to
the arrival of the response headers: if the header await exceeds it, the
timer fires `controller.abort()`, the task fails with the timeout message
and the registry entry returns to Idle; once headers arrive the timer is
cleared, so payload materialization runs with no deadline. -/
theorem deadline_aborts_header_wait (fmt : NormFormat) (title : Option String)
    (st : DlState) (tH tB size : Nat) (ok : Bool) (status : Nat) (stext : String)
    (h : 120000 < tH) :
    (handleDownload fmt title (.resolve tH ok status stext tB size) st).aborted = true
    ∧ (handleDownload fmt title (.resolve tH ok status stext tB size) st).state.error
        = "Download timeout. The video might be too large."
    ∧ (handleDownload fmt title (.resolve tH ok status stext tB size) st).state.downloadingMap
        (downloadId fmt) = false := by
  refine ⟨?_, ?_, ?_⟩ <;> simp [handleDownload, h, setBusy_error, setBusy_self]

theorem deadline_aborts_header_wait_witness :
    120000 < 120001
    ∧ ((handleDownload nfId none (.resolve 120001 true 200 "OK" 120002 5) st0).aborted = true
      ∧ (handleDownload nfId none (.resolve 120001 true 200 "OK" 120002 5) st0).state.error
          = "Download timeout. The video might be too large."
      ∧ (handleDownload nfId none (.resolve 120001 true 200 "OK" 120002 5) st0).state.downloadingMap
          (downloadId nfId) = false) :=
  ⟨by decide,
    deadline_aborts_header_wait nfId none st0 120001 120002 5 true 200 "OK" (by decide)⟩

/-- Claim C6 counterexample: for the response `{error:"Video unavailable"}`
(well-formed, no `formats`), the surfaced message is the generic
"Please check the URL and try again." suffix — the server's message text
appears nowhere in it.  (The thrown `Error(res.data.error)` reaches a catch
whose server-message branch reads only `err.response?.data?.error`, which a
locally thrown error does not have.) -/
theorem server_error_text_not_surfaced :
    (handleFetch "u" stF0 (.ok infoErr)).error
      = "Failed to fetch video info. Please check the URL and try again."
    ∧ hasSubstr (handleFetch "u" stF0 (.ok infoErr)).error "Video unavailable" = false
    ∧ (handleFetch "u" stF0 (.ok infoErr)).videoData = some emptyInfo := by
  refine ⟨rfl, by decide, rfl⟩

/-- Claim C6 amended: on a well-formed response with no `formats` and a
truthy `error` field (whose text does not contain "Network Error"),
`handleFetch` fails, the metadata slot holds the empty object (so no formats
are produced), but the surfaced message is the generic
"Failed to fetch video info. Please check the URL and try again." — the
server's message text is carried only by the internally thrown error, not by
the surfaced message. -/
theorem fetch_explicit_error_yields_generic_message (url : String) (st : FetchState)
    (d : InfoData) (hu : jsTrim url ≠ "") (hf : d.formats = none)
    (he : truthyStr d.error = true)
    (hm : hasSubstr (d.error.getD "") "Network Error" = false) :
    handleFetch url st (.ok d) =
      { videoData := some emptyInfo
        error := "Failed to fetch video info. Please check the URL and try again."
        loading := false } := by
  rw [handleFetch_of_ne url st _ hu]
  simp only [handleFetchBody, hf, Option.isSome_none, Bool.false_eq_true, if_neg,
    not_false_iff, he, if_pos]
  simp [fetchCatch, fetchSuffix, truthyStr, hm]

theorem fetch_explicit_error_yields_generic_message_witness :
    jsTrim "u" ≠ "" ∧ infoErr.formats = none ∧ truthyStr infoErr.error = true
    ∧ hasSubstr (infoErr.error.getD "") "Network Error" = false
    ∧ handleFetch "u" stF0 (.ok infoErr) =
        { videoData := some emptyInfo
          error := "Failed to fetch video info. Please check the URL and try again."
          loading := false } :=
  ⟨by decide, by decide, by decide, by decide,
    fetch_explicit_error_yields_generic_message "u" stF0 infoErr
      (by decide) (by decide) (by decide) (by decide)⟩

/-- Claim C10: when the response carries a truthy `formats` field, the
success branch wins regardless of any `error` field: the metadata is stored
wholesale and the error banner is cleared. -/
theorem fetch_formats_beats_error (url : String) (st : FetchState) (d : InfoData)
    (hu : jsTrim url ≠ "") (hf : d.formats.isSome = true) :
    handleFetch url st (.ok d) =
      { videoData := some d, error := "", loading := false } := by
  rw [handleFetch_of_ne url st _ hu]
  simp [handleFetchBody, hf]

theorem fetch_formats_beats_error_witness :
    jsTrim "u" ≠ "" ∧ infoBoth.formats.isSome = true
    ∧ truthyStr infoBoth.error = true
    ∧ handleFetch "u" stF0 (.ok infoBoth) =
        { videoData := some infoBoth, error := "", loading := false } :=
  ⟨by decide, by decide, by decide,
    fetch_formats_beats_error "u" stF0 infoBoth (by decide) (by decide)⟩

/-- Claim C8 counterexample: the download timeout failure surfaces
"Download timeout. The video might be too large.", which does not start with
the claimed stable prefix "Download failed:". -/
theorem timeout_message_lacks_path_prefix :
    (handleDownload nfId (some "t") (.resolve 130000 true 200 "OK" 130001 5) st0).state.error
      = "Download timeout. The video might be too large."
    ∧ strStarts
        (handleDownload nfId (some "t") (.resolve 130000 true 200 "OK" 130001 5) st0).state.error
        "Download failed:" = false := by
  refine ⟨rfl, by decide⟩

/-- Claim C8 amended: every surfaced metadata-path failure message starts
with the stable prefix "Failed to fetch video info.", and every surfaced
download-path failure message starts with "Download failed:" — except the
download timeout cause, which uses the standalone message
"Download timeout. The video might be too large." with no such prefix. -/
theorem failure_messages_prefix_composed :
    (∀ (url : String) (st : FetchState) (oc : Except JsError InfoData),
        jsTrim url ≠ "" → (handleFetch url st oc).error ≠ "" →
        strStarts (handleFetch url st oc).error "Failed to fetch video info." = true)
    ∧ (∀ (fmt : NormFormat) (title : Option String) (resp : FetchResponse)
        (st : DlState),
        (handleDownload fmt title resp st).state.error ≠ "" →
        (handleDownload fmt title resp st).state.error
          ≠ "Download timeout. The video might be too large." →
        strStarts (handleDownload fmt title resp st).state.error "Download failed:"
          = true) := by
  have hpre : ∀ e : JsError,
      strStarts (fetchCatch e).error "Failed to fetch video info." = true :=
    fun e => strStarts_append_left _ _ _ (by decide)
  constructor
  · intro url st oc hu hne
    rw [handleFetch_of_ne url st oc hu] at hne ⊢
    cases oc with
    | error e => exact hpre e
    | ok d =>
      by_cases hf : d.formats.isSome = true
      · simp [handleFetchBody, hf] at hne
      · have hf' : d.formats.isSome = false := by simpa using hf
        simp only [handleFetchBody, hf', Bool.false_eq_true, if_neg, not_false_iff]
        exact hpre _
  · intro fmt title resp st hne hto
    cases resp with
    | reject name msg =>
      by_cases h : name = "AbortError"
      · exact absurd (by simp [handleDownload, setBusy_error, h]) hto
      · have he : (handleDownload fmt title (.reject name msg) st).state.error
            = "Download failed: " ++ msg := by
          simp [handleDownload, setBusy_error, h]
        rw [he]
        exact strStarts_append_left _ _ _ (by decide)
    | resolve tH ok status stext tB size =>
      by_cases h1 : 120000 < tH
      · exact absurd (by simp [handleDownload, setBusy_error, h1]) hto
      · by_cases h2 : ok = true
        · by_cases h3 : size = 0
          · have he : (handleDownload fmt title
                (.resolve tH ok status stext tB size) st).state.error
                = "Download failed: Received empty file from server" := by
              simp [handleDownload, setBusy_error, h1, h2, h3]
            rw [he]
            decide
          · exact absurd (by simp [handleDownload, setBusy_error, h1, h2, h3]) hne
        · have he : (handleDownload fmt title
              (.resolve tH ok status stext tB size) st).state.error
              = "Download failed: Server returned " ++ toString status ++ ": "
                ++ stext := by
            simp [handleDownload, setBusy_error, h1, h2]
          rw [he]
          exact strStarts_append_left _ _ _
            (strStarts_append_left _ _ _
              (strStarts_append_left _ _ _ (by decide)))

theorem failure_messages_prefix_composed_witness :
    (jsTrim "u" ≠ "" ∧ (handleFetch "u" stF0 (.error jsE0)).error ≠ ""
      ∧ strStarts (handleFetch "u" stF0 (.error jsE0)).error
          "Failed to fetch video info." = true)
    ∧ ((handleDownload nfId none (.reject "TypeError" "boom") st0).state.error ≠ ""
      ∧ (handleDownload nfId none (.reject "TypeError" "boom") st0).state.error
          ≠ "Download timeout. The video might be too large."
      ∧ strStarts (handleDownload nfId none (.reject "TypeError" "boom") st0).state.error
          "Download failed:" = true) :=
  ⟨⟨by decide, by decide,
      failure_messages_prefix_composed.1 "u" stF0 (.error jsE0) (by decide) (by decide)⟩,
   ⟨by decide, by decide,
      failure_messages_prefix_composed.2 nfId none (.reject "TypeError" "boom") st0
        (by decide) (by decide)⟩⟩
